import Mathlib

/-!
Verification of the Uniswap V4 swap-calldata encoder of this repository
(`src/lib/uniswap/poolUtils.ts`, `singleHopSwap.ts`, `multiHopSwap.ts`,
`src/lib/config/tokens.ts`, the contracts configuration module, and the
direct-ABI single-hop encoder variant).

Addresses are modelled as the JavaScript strings the code manipulates
(`viem.Address` is a hex string).  JavaScript's `String.prototype.toLowerCase`
and `<` on strings are modelled by `toLowerJS` and `strLtJS` below; for the
ASCII hex strings involved these agree with JavaScript exactly.

`bigint` values (amounts, deadlines) are modelled as `Int`.  Functions that
`throw` are modelled as `Except String`-valued; the impure read of the clock
(`Date.now()`) inside the validators is modelled by an explicit `now`
parameter.
-/

/-- JavaScript `toLowerCase` on a single ASCII character: `A`–`Z` maps to
`a`–`z`, everything else is unchanged. -/
def lowerChar (c : Char) : Char :=
  if 'A' ≤ c ∧ c ≤ 'Z' then Char.ofNat (c.toNat + 32) else c

/-- JavaScript `String.prototype.toLowerCase` (ASCII range). -/
def toLowerJS (s : String) : String := ⟨s.data.map lowerChar⟩

/-- Lexicographic strict comparison of character lists by code point, the
order JavaScript's `<` uses on strings. -/
def listLtb : List Char → List Char → Bool
  | [], [] => false
  | [], _ :: _ => true
  | _ :: _, [] => false
  | a :: as, b :: bs => if a < b then true else if b < a then false else listLtb as bs

/-- JavaScript `<` on strings (lexicographic by UTF-16 code unit; identical to
code-point order on the ASCII strings used here). -/
def strLtJS (a b : String) : Bool := listLtb a.data b.data


/-! ## `src/types/swap.ts`: data model -/

/-- `Token` from `src/types/swap.ts` (the optional display-only `logoURI`
field is omitted; no code under verification reads it). -/
structure Token where
  address : String
  decimals : Nat
  symbol : String
  name : String
  chainId : Nat
deriving DecidableEq, Repr

/-- `PoolKey` from `src/types/swap.ts`. -/
structure PoolKey where
  currency0 : String
  currency1 : String
  fee : Nat
  tickSpacing : Nat
  hooks : String
deriving DecidableEq, Repr

/-- `PathKey` from `src/types/swap.ts`. -/
structure PathKey where
  intermediateCurrency : String
  fee : Nat
  tickSpacing : Nat
  hooks : String
  hookData : String
deriving DecidableEq, Repr

/-- `SingleHopSwapParams` from `src/types/swap.ts`. -/
structure SingleHopSwapParams where
  tokenIn : Token
  tokenOut : Token
  amountIn : Int
  minAmountOut : Int
  recipient : String
  deadline : Int
  chainId : Nat
deriving DecidableEq, Repr

/-- `MultiHopSwapParams` from `src/types/swap.ts`. -/
structure MultiHopSwapParams where
  route : List Token
  amountIn : Int
  minAmountOut : Int
  recipient : String
  deadline : Int
  chainId : Nat
deriving DecidableEq, Repr

-- `FEE_AMOUNTS` from `src/types/swap.ts`.
namespace FEE_AMOUNTS

def LOWEST : Nat := 100

def LOW : Nat := 500

def MEDIUM : Nat := 3000

def HIGH : Nat := 10000

end FEE_AMOUNTS

/-! ## `src/lib/config/tokens.ts` -/

/-- The native-ETH placeholder address from `src/lib/config/tokens.ts`. -/
def NATIVE_ADDRESS : String := "0xEeeeeEeeeEeEeeEeEeEeeEEEeeeeEeeeeeeeEEeE"

/-- `isNativeToken` from `src/lib/config/tokens.ts`. -/
def isNativeToken (address : String) : Bool :=
  toLowerJS address == toLowerJS NATIVE_ADDRESS

/-- `getWETHAddress` from `src/lib/config/tokens.ts`:
`getTokensByChainId(chainId).WETH.address`, with the per-chain token tables
inlined (unknown chains fall back to the mainnet table). -/
def getWETHAddress (chainId : Nat) : String :=
  match chainId with
  | 1 => "0xC02aaA39b223FE8D0A0e5C4F27eAD9083C756Cc2"
  | 11155111 => "0xfFf9976782d46CC05630D1f6eBAb18b2324d6B14"
  | 10 => "0x4200000000000000000000000000000000000006"
  | 8453 => "0x4200000000000000000000000000000000000006"
  | 42161 => "0x82aF49447D8a07e3bd95BD0d56f35241523fBab1"
  | _ => "0xC02aaA39b223FE8D0A0e5C4F27eAD9083C756Cc2"

/-- `MAINNET_TOKENS.ETH` from `src/lib/config/tokens.ts`. -/
def MAINNET_ETH : Token :=
  { address := NATIVE_ADDRESS, decimals := 18, symbol := "ETH", name := "Ether", chainId := 1 }

/-- `MAINNET_TOKENS.WETH` from `src/lib/config/tokens.ts`. -/
def MAINNET_WETH : Token :=
  { address := "0xC02aaA39b223FE8D0A0e5C4F27eAD9083C756Cc2", decimals := 18,
    symbol := "WETH", name := "Wrapped Ether", chainId := 1 }

/-- `MAINNET_TOKENS.USDC` from `src/lib/config/tokens.ts`. -/
def MAINNET_USDC : Token :=
  { address := "0xA0b86991c6218b36c1d19D4a2e9Eb0cE3606eB48", decimals := 6,
    symbol := "USDC", name := "USD Coin", chainId := 1 }

/-- `MAINNET_TOKENS.DAI` from `src/lib/config/tokens.ts`. -/
def MAINNET_DAI : Token :=
  { address := "0x6B175474E89094C44Da98b954EedeAC495271d0F", decimals := 18,
    symbol := "DAI", name := "Dai Stablecoin", chainId := 1 }

/-! ## `src/lib/uniswap/poolUtils.ts` -/

/-- `ZERO_ADDRESS` from `src/lib/uniswap/poolUtils.ts`. -/
def ZERO_ADDRESS : String := "0x0000000000000000000000000000000000000000"

/-- `sortTokens` from `src/lib/uniswap/poolUtils.ts` (lines 11-13). -/
def sortTokens (tokenA tokenB : String) : String × String :=
  if strLtJS (toLowerJS tokenA) (toLowerJS tokenB) then (tokenA, tokenB) else (tokenB, tokenA)

/-- `getZeroForOne` from `src/lib/uniswap/poolUtils.ts` (lines 18-21). -/
def getZeroForOne (tokenIn tokenOut : String) : Bool :=
  toLowerJS tokenIn == toLowerJS (sortTokens tokenIn tokenOut).1

/-- `getPoolTokenAddress` from `src/lib/uniswap/poolUtils.ts` (lines 27-32). -/
def getPoolTokenAddress (token : Token) : String :=
  if isNativeToken token.address then getWETHAddress token.chainId else token.address

/-- `getTickSpacing` from `src/lib/uniswap/poolUtils.ts` (lines 65-73), with
`TICK_SPACINGS` from `src/types/swap.ts` inlined at its four literal keys.
Note the function is total: an unrecognized fee falls through to the MEDIUM
tier's tick spacing (`// Default to MEDIUM tier`). -/
def getTickSpacing (fee : Nat) : Nat :=
  if fee = FEE_AMOUNTS.LOWEST then 1
  else if fee = FEE_AMOUNTS.LOW then 10
  else if fee = FEE_AMOUNTS.MEDIUM then 60
  else if fee = FEE_AMOUNTS.HIGH then 200
  else 60

/-- `createPoolKey` from `src/lib/uniswap/poolUtils.ts` (lines 37-60).  The
TypeScript defaults (`fee = FEE_AMOUNTS.MEDIUM`, `hooks = ZERO_ADDRESS`) are
passed explicitly by callers in this development. -/
def createPoolKey (tokenIn tokenOut : Token) (fee : Nat) (hooks : String) : PoolKey :=
  let tokenInAddress := getPoolTokenAddress tokenIn
  let tokenOutAddress := getPoolTokenAddress tokenOut
  let sorted := sortTokens tokenInAddress tokenOutAddress
  { currency0 := sorted.1, currency1 := sorted.2, fee := fee,
    tickSpacing := getTickSpacing fee, hooks := hooks }

/-- Placeholder token used as the default of in-range list indexing. -/
def dummyToken : Token :=
  { address := "", decimals := 0, symbol := "", name := "", chainId := 0 }

/-- Placeholder pool key used as the default of in-range list indexing. -/
def emptyPoolKey : PoolKey :=
  { currency0 := "", currency1 := "", fee := 0, tickSpacing := 0, hooks := "" }

/-- Placeholder path key used as the default of in-range list indexing. -/
def dummyPathKey : PathKey :=
  { intermediateCurrency := "", fee := 0, tickSpacing := 0, hooks := "", hookData := "" }

/-- The hop fee selection `defaultFees[i] || FEE_AMOUNTS.MEDIUM` in
`encodeRoutePath` (`poolUtils.ts` line 163): an out-of-range index yields
`undefined` and a `0` entry is falsy, so both fall back to the medium tier. -/
def feeFromList (fees : List Nat) (i : Nat) : Nat :=
  match fees.get? i with
  | some f => if f = 0 then FEE_AMOUNTS.MEDIUM else f
  | none => FEE_AMOUNTS.MEDIUM

/-- The first loop of `encodeRoutePath` (`poolUtils.ts` lines 161-165): one
pool key per consecutive route pair, with the per-hop fee from `feeFromList`. -/
def routePoolKeys (route : List Token) (defaultFees : List Nat) : List PoolKey :=
  (List.range (route.length - 1)).map fun i =>
    createPoolKey (route.getD i dummyToken) (route.getD (i + 1) dummyToken)
      (feeFromList defaultFees i) ZERO_ADDRESS

/-- The second loop of `encodeRoutePath` (`poolUtils.ts` lines 171-197), which
is also, verbatim, the body of `encodeMultihopExactInPath`
(`multiHopSwap.ts` lines 53-79): walk the hops pairing each pool key with the
hop's output token, track the current input currency, and emit one `PathKey`
per hop (`address(0)` when the hop's output token is native ETH). -/
def buildPathKeys : String → List (PoolKey × Token) → List PathKey
  | _, [] => []
  | currentCurrencyIn, (poolKey, outputToken) :: rest =>
    let currencyOut :=
      if toLowerJS currentCurrencyIn == toLowerJS poolKey.currency0 then poolKey.currency1
      else poolKey.currency0
    let pathCurrency :=
      if isNativeToken outputToken.address then ZERO_ADDRESS else currencyOut
    { intermediateCurrency := pathCurrency, fee := poolKey.fee,
      tickSpacing := poolKey.tickSpacing, hooks := poolKey.hooks, hookData := "0x" }
      :: buildPathKeys currencyOut rest

/-- `encodeRoutePath` from `src/lib/uniswap/poolUtils.ts` (lines 152-200).
The `throw` on short routes becomes `Except.error`; `fees` being `undefined`
(`none`) selects the all-MEDIUM default list. -/
def encodeRoutePath (route : List Token) (fees : Option (List Nat)) :
    Except String (List PathKey) :=
  if route.length < 3 then .error "Route must have at least 3 tokens for multi-hop"
  else
    let defaultFees := fees.getD (List.replicate (route.length - 1) FEE_AMOUNTS.MEDIUM)
    let poolKeys := routePoolKeys route defaultFees
    .ok (buildPathKeys (getPoolTokenAddress (route.headD dummyToken))
      (poolKeys.zip (route.drop 1)))

/-- `isValidTokenPair` from `src/lib/uniswap/poolUtils.ts` (lines 205-216). -/
def isValidTokenPair (tokenA tokenB : Token) : Bool :=
  if tokenA.chainId != tokenB.chainId then false
  else toLowerJS (getPoolTokenAddress tokenA) != toLowerJS (getPoolTokenAddress tokenB)

/-- `isValidRoute` from `src/lib/uniswap/poolUtils.ts` (lines 221-241): all
tokens on the first token's chain, and every adjacent pair a valid pool pair
(the indexed loop is expressed with `List.all` / `zip` over adjacent pairs). -/
def isValidRoute (route : List Token) : Bool :=
  if route.length < 2 then false
  else
    (route.all fun t => t.chainId == (route.headD dummyToken).chainId) &&
    ((route.zip route.tail).all fun q => isValidTokenPair q.1 q.2)

/-! ## Contracts configuration (`src/lib/config/contracts.ts`) -/

/-- `UniswapContracts` from `src/types/swap.ts`. -/
structure UniswapContracts where
  poolManager : String
  quoter : String
  stateView : String
  universalRouter : String
  permit2 : String
deriving DecidableEq, Repr

/-- `MAINNET_CONTRACTS` from the contracts configuration module.  The
addresses are kept as written in the source; `viem.getAddress` only
re-checksums the hex string for display and is not modelled. -/
def MAINNET_CONTRACTS : UniswapContracts :=
  { poolManager := "0x000000000004444c5dc75cB358380D2e3dE08A90",
    quoter := "0x52f0e24d1c21c8a0cb1e5a5dd6198556bd9e1203",
    stateView := "0x7ffe42c4a5deea5b0fec41c94c136cf115597227",
    universalRouter := "0x66a9893cc07d91d95644aedd05d03f95e1dba8af",
    permit2 := "0x000000000022D473030F116dDEE9F6B43aC78BA3" }

/-- `SEPOLIA_CONTRACTS` from the contracts configuration module. -/
def SEPOLIA_CONTRACTS : UniswapContracts :=
  { poolManager := "0xE03A1074c86CFeDd5C142C4F04F1a1536e203543",
    quoter := "0x61b3f2011a92d183c7dbadbda940a7555ccf9227",
    stateView := "0xe1dd9c3fa50edb962e442f60dfbc432e24537e4c",
    universalRouter := "0x3A9D48AB9751398BbFa63ad67599Bb04e4BdF98b",
    permit2 := "0x000000000022D473030F116dDEE9F6B43aC78BA3" }

/-- `BASE_CONTRACTS` from the contracts configuration module. -/
def BASE_CONTRACTS : UniswapContracts :=
  { poolManager := "0x498581ff718922c3f8e6a244956af099b2652b2b",
    quoter := "0x0d5e0f971ed27fbff6c2837bf31316121532048d",
    stateView := "0xa3c0c9b65bad0b08107aa264b0f3db444b867a71",
    universalRouter := "0x6ff5693b99212da76ad316178a184ab56d299b43",
    permit2 := "0x000000000022D473030F116dDEE9F6B43aC78BA3" }

/-- `ARBITRUM_CONTRACTS` from the contracts configuration module. -/
def ARBITRUM_CONTRACTS : UniswapContracts :=
  { poolManager := "0x360e68faccca8ca495c1b759fd9eee466db9fb32",
    quoter := "0x3972c00f7ed4885e145823eb7c655375d275a1c5",
    stateView := "0x76fd297e2d437cd7f76d50f01afe6160f86e9990",
    universalRouter := "0xa51afafe0263b40edaef0df8781ea9aa03e381a3",
    permit2 := "0x000000000022D473030F116dDEE9F6B43aC78BA3" }

/-- `getContractsByChainId` from the contracts configuration module; the
`throw` on unsupported chains becomes `Except.error`. -/
def getContractsByChainId (chainId : Nat) : Except String UniswapContracts :=
  match chainId with
  | 1 => .ok MAINNET_CONTRACTS
  | 11155111 => .ok SEPOLIA_CONTRACTS
  | 8453 => .ok BASE_CONTRACTS
  | 42161 => .ok ARBITRUM_CONTRACTS
  | _ => .error "Unsupported chain ID"

/-- `getUniversalRouterAddress` from the contracts configuration module. -/
def getUniversalRouterAddress (chainId : Nat) : Except String String :=
  (getContractsByChainId chainId).map (·.universalRouter)

/-- An ASCII hexadecimal digit. -/
def isHexDigit (c : Char) : Bool :=
  c.isDigit || ('a' ≤ c && c ≤ 'f') || ('A' ≤ c && c ≤ 'F')

/-- Model of `viem.isAddress`: `0x` followed by 40 hex digits.  The EIP-55
checksum verification viem performs on mixed-case inputs is not modelled
(this model accepts a superset of the strings viem accepts, which only ever
weakens the hypotheses of the theorems below). -/
def isAddress (s : String) : Bool :=
  match s.data with
  | '0' :: 'x' :: rest => rest.length == 40 && rest.all isHexDigit
  | _ => false

/-! ## Uniswap V4 action plans

The repository encodes router calldata through `V4Planner` /
`RoutePlanner` of the official SDKs (or, in the direct-ABI variant, by
hand).  The serialized artifact is a pair `(bytes actions, bytes[] params)`
wrapped in a single `V4_SWAP = 0x10` universal-router command; it is modelled
here structurally: one constructor per action kind, carrying the exact typed
tuple the code passes, with `actionOpcode` giving the byte that the planner
emits for the action (the `Actions` constants of
`v4-periphery/src/libraries/Actions.sol`, quoted in `singleHopSwap.ts`
lines 8-13 and in the v3 variant's comments). -/

/-- One V4 action together with its parameter tuple, as added to the planner. -/
inductive V4ActionParams where
  | swapExactInSingle (poolKey : PoolKey) (zeroForOne : Bool)
      (amountIn : Int) (amountOutMinimum : Int) (hookData : String)
  | swapExactIn (currencyIn : String) (path : List PathKey)
      (amountIn : Int) (amountOutMinimum : Int)
  | settle (currency : String) (amount : Int) (payerIsUser : Bool)
  | settleAll (currency : String) (amount : Int)
  | take (currency : String) (recipient : String) (amount : Int)
  | takeAll (currency : String) (amount : Int)
deriving DecidableEq, Repr

/-- The action byte for each action (`Actions.sol` constants). -/
def actionOpcode : V4ActionParams → Nat
  | .swapExactInSingle _ _ _ _ _ => 0x06
  | .swapExactIn _ _ _ _ => 0x07
  | .settle _ _ _ => 0x0b
  | .settleAll _ _ => 0x0c
  | .take _ _ _ => 0x0e
  | .takeAll _ _ => 0x0f

/-- The `{ commands, inputs }` pair returned by the encoders: the one-byte
top-level command string, and the `(bytes actions, bytes[] params)` content
of `inputs[0]` kept structured. -/
structure RouterPayload where
  commands : List Nat
  actions : List Nat
  params : List V4ActionParams
deriving DecidableEq, Repr

/-- `V4Planner.finalize()`: the serialized action byte string is the opcode
of each added action in order, alongside the per-action parameter blobs. -/
def v4PlannerFinalize (plan : List V4ActionParams) : List Nat × List V4ActionParams :=
  (plan.map actionOpcode, plan)

/-- The universal-router command byte `V4_SWAP`
(`singleHopSwap.ts` line 13, `CommandType.V4_SWAP` in the multi-hop file). -/
def V4_SWAP_COMMAND : Nat := 0x10

/-- The pool keys carried by the swap actions of a payload. -/
def RouterPayload.swapPoolKeys (r : RouterPayload) : List PoolKey :=
  r.params.filterMap fun a =>
    match a with
    | .swapExactInSingle pk _ _ _ _ => some pk
    | _ => none

/-- The currencies targeted by the settle(-all) steps of a payload. -/
def RouterPayload.settleCurrencies (r : RouterPayload) : List String :=
  r.params.filterMap fun a =>
    match a with
    | .settle c _ _ => some c
    | .settleAll c _ => some c
    | _ => none

/-- The currencies targeted by the take(-all) steps of a payload. -/
def RouterPayload.takeCurrencies (r : RouterPayload) : List String :=
  r.params.filterMap fun a =>
    match a with
    | .take c _ _ => some c
    | .takeAll c _ => some c
    | _ => none

/-- The `{ to, data, value }` transaction object returned by the prepare
functions.  `data` is `encodeFunctionData(execute, [commands, inputs,
deadline])`; its arguments are kept structured as the payload plus the
deadline.  (The transaction's `to` field is called `toAddr` here, `to` being
a Lean keyword.) -/
structure PreparedTx where
  toAddr : String
  commands : List Nat
  actions : List Nat
  params : List V4ActionParams
  deadline : Int
  value : Int
deriving DecidableEq, Repr

/-- The `{ valid, error? }` result of the parameter validators. -/
structure ValidationResult where
  valid : Bool
  error : Option String
deriving DecidableEq, Repr

/-- `getV4Currency` from `src/lib/uniswap/multiHopSwap.ts` (lines 16-21);
`singleHopSwap.ts` (lines 36-41) and the direct-ABI variant define a local
closure with the identical body, shared here. -/
def getV4Currency (token : Token) : String :=
  if isNativeToken token.address then ZERO_ADDRESS else getPoolTokenAddress token

/-! ## `src/lib/uniswap/singleHopSwap.ts` -/

namespace SingleHop

/-- The pool key built by `encodeV4SwapActions` (`singleHopSwap.ts` line 24):
`createPoolKey(tokenIn, tokenOut)` with the TypeScript defaults. -/
def poolKey (p : SingleHopSwapParams) : PoolKey :=
  createPoolKey p.tokenIn p.tokenOut FEE_AMOUNTS.MEDIUM ZERO_ADDRESS

/-- The direction flag of `encodeV4SwapActions` (`singleHopSwap.ts`
line 31): `getZeroForOne(tokenInAddress, tokenOutAddress)` on the
pool-token (WETH-substituted) addresses. -/
def zeroForOne (p : SingleHopSwapParams) : Bool :=
  getZeroForOne (getPoolTokenAddress p.tokenIn) (getPoolTokenAddress p.tokenOut)

/-- `poolKeyCurrency0` of `encodeV4SwapActions` (`singleHopSwap.ts`
lines 49-53): replace the slot by `address(0)` when it carries the wrapped
form of a native side. -/
def poolKeyCurrency0 (p : SingleHopSwapParams) : String :=
  if isNativeToken p.tokenIn.address
      && ((poolKey p).currency0 == getPoolTokenAddress p.tokenIn) then ZERO_ADDRESS
  else if isNativeToken p.tokenOut.address
      && ((poolKey p).currency0 == getPoolTokenAddress p.tokenOut) then ZERO_ADDRESS
  else (poolKey p).currency0

/-- `poolKeyCurrency1` of `encodeV4SwapActions` (`singleHopSwap.ts`
lines 55-59). -/
def poolKeyCurrency1 (p : SingleHopSwapParams) : String :=
  if isNativeToken p.tokenIn.address
      && ((poolKey p).currency1 == getPoolTokenAddress p.tokenIn) then ZERO_ADDRESS
  else if isNativeToken p.tokenOut.address
      && ((poolKey p).currency1 == getPoolTokenAddress p.tokenOut) then ZERO_ADDRESS
  else (poolKey p).currency1

/-- `encodeV4SwapActions` from `src/lib/uniswap/singleHopSwap.ts`
(lines 18-107): plan `SWAP_EXACT_IN_SINGLE`, then `SETTLE(currencyIn,
amountIn, true)`, then `TAKE(currencyOut, recipient, 0)`, finalized and
wrapped in the one-byte `V4_SWAP` command string. -/
def encodeV4SwapActions (p : SingleHopSwapParams) : RouterPayload :=
  let plan : List V4ActionParams :=
    [ .swapExactInSingle
        { currency0 := poolKeyCurrency0 p, currency1 := poolKeyCurrency1 p,
          fee := (poolKey p).fee, tickSpacing := (poolKey p).tickSpacing,
          hooks := (poolKey p).hooks }
        (zeroForOne p) p.amountIn p.minAmountOut "0x",
      .settle (getV4Currency p.tokenIn) p.amountIn true,
      .take (getV4Currency p.tokenOut) p.recipient 0 ]
  { commands := [V4_SWAP_COMMAND],
    actions := (v4PlannerFinalize plan).1,
    params := (v4PlannerFinalize plan).2 }

/-- `prepareSingleHopSwap` from `src/lib/uniswap/singleHopSwap.ts`
(lines 112-149).  `getUniversalRouterAddress` throws on unsupported chains,
hence the `Except`; `value` is the input amount exactly when the input token
is native ETH. -/
def prepareSingleHopSwap (p : SingleHopSwapParams) : Except String PreparedTx :=
  match getUniversalRouterAddress p.chainId with
  | .error e => .error e
  | .ok universalRouterAddress =>
    let enc := encodeV4SwapActions p
    .ok { toAddr := universalRouterAddress, commands := enc.commands,
          actions := enc.actions, params := enc.params, deadline := p.deadline,
          value := if isNativeToken p.tokenIn.address then p.amountIn else 0 }

/-- `executeSingleHopSwap` from `src/lib/uniswap/singleHopSwap.ts`
(lines 156-183): inline checks of the amounts and the chain (the deadline is
not checked here), then `prepareSingleHopSwap`. -/
def executeSingleHopSwap (p : SingleHopSwapParams) : Except String PreparedTx :=
  if p.amountIn ≤ 0 then .error "Amount in must be greater than 0"
  else if p.minAmountOut < 0 then .error "Minimum amount out cannot be negative"
  else if p.tokenIn.chainId != p.tokenOut.chainId then .error "Tokens must be on the same chain"
  else prepareSingleHopSwap p

/-- `validateSingleHopSwapParams` from `src/lib/uniswap/singleHopSwap.ts`
(lines 197-222).  The read of `Date.now()` is the explicit `now` argument
(in seconds). -/
def validateSingleHopSwapParams (now : Int) (p : SingleHopSwapParams) : ValidationResult :=
  if p.amountIn ≤ 0 then
    { valid := false, error := some "Amount in must be greater than 0" }
  else if p.minAmountOut < 0 then
    { valid := false, error := some "Minimum amount out cannot be negative" }
  else if p.tokenIn.chainId != p.tokenOut.chainId then
    { valid := false, error := some "Tokens must be on the same chain" }
  else if toLowerJS p.tokenIn.address == toLowerJS p.tokenOut.address then
    { valid := false, error := some "Cannot swap a token for itself" }
  else if p.deadline ≤ now then
    { valid := false, error := some "Deadline has already passed" }
  else { valid := true, error := none }

end SingleHop

/-! ## The direct-ABI single-hop encoder variant (`encodeV4SwapDirect`) -/

namespace Direct

/-- `poolKeyCurrency0` of `encodeV4SwapDirect` (the direct-ABI variant,
lines 53-57; `tokenInAddress`/`tokenOutAddress` there are
`getPoolTokenAddress` of the tokens). -/
def poolKeyCurrency0 (p : SingleHopSwapParams) : String :=
  if isNativeToken p.tokenIn.address
      && ((SingleHop.poolKey p).currency0 == getPoolTokenAddress p.tokenIn) then ZERO_ADDRESS
  else if isNativeToken p.tokenOut.address
      && ((SingleHop.poolKey p).currency0 == getPoolTokenAddress p.tokenOut) then ZERO_ADDRESS
  else (SingleHop.poolKey p).currency0

/-- `poolKeyCurrency1` of `encodeV4SwapDirect` (lines 59-63). -/
def poolKeyCurrency1 (p : SingleHopSwapParams) : String :=
  if isNativeToken p.tokenIn.address
      && ((SingleHop.poolKey p).currency1 == getPoolTokenAddress p.tokenIn) then ZERO_ADDRESS
  else if isNativeToken p.tokenOut.address
      && ((SingleHop.poolKey p).currency1 == getPoolTokenAddress p.tokenOut) then ZERO_ADDRESS
  else (SingleHop.poolKey p).currency1

/-- `encodeV4SwapDirect` from the direct-ABI single-hop variant
(approach 1, lines 25-139): action bytes `SWAP_EXACT_IN_SINGLE (0x06),
SETTLE_ALL (0x0c), TAKE_ALL (0x0f)` concatenated by hand, with
`SETTLE_ALL(currencyIn, amountIn)` and `TAKE_ALL(currencyOut,
minAmountOut)`, wrapped in the one-byte `V4_SWAP` command. -/
def encodeV4SwapDirect (p : SingleHopSwapParams) : RouterPayload :=
  { commands := [V4_SWAP_COMMAND],
    actions := [0x06, 0x0c, 0x0f],
    params :=
      [ .swapExactInSingle
          { currency0 := poolKeyCurrency0 p, currency1 := poolKeyCurrency1 p,
            fee := (SingleHop.poolKey p).fee,
            tickSpacing := (SingleHop.poolKey p).tickSpacing,
            hooks := (SingleHop.poolKey p).hooks }
          (SingleHop.zeroForOne p) p.amountIn p.minAmountOut "0x",
        .settleAll (getV4Currency p.tokenIn) p.amountIn,
        .takeAll (getV4Currency p.tokenOut) p.minAmountOut ] }

end Direct

/-! ## `src/lib/uniswap/multiHopSwap.ts` -/

namespace MultiHop

/-- The per-hop pool-key substitution of `encodeV4MultiHopActions`
(`multiHopSwap.ts` lines 122-143): a slot carrying the wrapped address of a
native side of the hop is replaced by `address(0)`. -/
def substPoolKey (token0 token1 : Token) (poolKey : PoolKey) : PoolKey :=
  let poolKeyCurrency0 :=
    if (isNativeToken token0.address && (poolKey.currency0 == getPoolTokenAddress token0))
        || (isNativeToken token1.address && (poolKey.currency0 == getPoolTokenAddress token1))
    then ZERO_ADDRESS else poolKey.currency0
  let poolKeyCurrency1 :=
    if (isNativeToken token0.address && (poolKey.currency1 == getPoolTokenAddress token0))
        || (isNativeToken token1.address && (poolKey.currency1 == getPoolTokenAddress token1))
    then ZERO_ADDRESS else poolKey.currency1
  { poolKey with currency0 := poolKeyCurrency0, currency1 := poolKeyCurrency1 }

/-- The pool-key loop of `encodeV4MultiHopActions` (`multiHopSwap.ts`
lines 118-144): one `createPoolKey` (default MEDIUM fee) per consecutive
route pair, then the native-ETH slot substitution. -/
def hopPoolKeys (route : List Token) : List PoolKey :=
  (List.range (route.length - 1)).map fun i =>
    let token0 := route.getD i dummyToken
    let token1 := route.getD (i + 1) dummyToken
    substPoolKey token0 token1 (createPoolKey token0 token1 FEE_AMOUNTS.MEDIUM ZERO_ADDRESS)

/-- `encodeMultihopExactInPath` from `src/lib/uniswap/multiHopSwap.ts`
(lines 34-82); its loop body is `buildPathKeys`, with the hop's output token
taken from `route[i + 1]`. -/
def encodeMultihopExactInPath (poolKeys : List PoolKey) (currencyIn : String)
    (route : List Token) : List PathKey :=
  buildPathKeys currencyIn (poolKeys.zip (route.drop 1))

/-- `encodeV4MultiHopActions` from `src/lib/uniswap/multiHopSwap.ts`
(lines 95-213): validate the recipient, the route and its length, then plan
`SWAP_EXACT_IN(currencyIn, path, amountIn, minAmountOut)`,
`SETTLE_ALL(currencyIn, amountIn)`, `TAKE_ALL(currencyOut, minAmountOut)`
and wrap in the one-byte `V4_SWAP` command. -/
def encodeV4MultiHopActions (p : MultiHopSwapParams) : Except String RouterPayload :=
  if !isAddress p.recipient then .error "Invalid recipient address"
  else if !isValidRoute p.route then
    .error "Invalid route: tokens must be on same chain and adjacent tokens must be different"
  else if p.route.length < 3 then .error "Multi-hop route must have at least 3 tokens"
  else
    let tokenIn := p.route.headD dummyToken
    let tokenOut := p.route.getLastD dummyToken
    let poolKeys := hopPoolKeys p.route
    let currencyIn := getV4Currency tokenIn
    let currencyOut := getV4Currency tokenOut
    let path := encodeMultihopExactInPath poolKeys currencyIn p.route
    let plan : List V4ActionParams :=
      [ .swapExactIn currencyIn path p.amountIn p.minAmountOut,
        .settleAll currencyIn p.amountIn,
        .takeAll currencyOut p.minAmountOut ]
    .ok { commands := [V4_SWAP_COMMAND],
          actions := (v4PlannerFinalize plan).1,
          params := (v4PlannerFinalize plan).2 }

/-- `validateMultiHopSwapParams` from `src/lib/uniswap/multiHopSwap.ts`
(lines 313-342), with the `Date.now()` read as the explicit `now` argument. -/
def validateMultiHopSwapParams (now : Int) (p : MultiHopSwapParams) : ValidationResult :=
  if p.amountIn ≤ 0 then
    { valid := false, error := some "Amount in must be greater than 0" }
  else if p.minAmountOut < 0 then
    { valid := false, error := some "Minimum amount out cannot be negative" }
  else if p.route.length < 3 then
    { valid := false,
      error := some "Multi-hop route must have at least 3 tokens (e.g., ETH → USDC → DAI)" }
  else if !isValidRoute p.route then
    { valid := false,
      error := some "Invalid route: tokens must be on same chain and adjacent tokens must be different" }
  else if !isAddress p.recipient then
    { valid := false, error := some "Invalid recipient address" }
  else if p.deadline ≤ now then
    { valid := false, error := some "Deadline has already passed" }
  else { valid := true, error := none }

/-- `prepareMultiHopSwap` from `src/lib/uniswap/multiHopSwap.ts`
(lines 221-266): validate first (never encode on failure), then resolve the
router address, encode, and attach `value = amountIn` exactly when the first
route token is native ETH. -/
def prepareMultiHopSwap (now : Int) (p : MultiHopSwapParams) : Except String PreparedTx :=
  let validation := validateMultiHopSwapParams now p
  if !validation.valid then
    .error ("Invalid multi-hop swap parameters: " ++ validation.error.getD "")
  else
    match getUniversalRouterAddress p.chainId with
    | .error e => .error e
    | .ok universalRouterAddress =>
      match encodeV4MultiHopActions p with
      | .error e => .error e
      | .ok enc =>
        let tokenIn := p.route.headD dummyToken
        .ok { toAddr := universalRouterAddress, commands := enc.commands,
              actions := enc.actions, params := enc.params, deadline := p.deadline,
              value := if isNativeToken tokenIn.address then p.amountIn else 0 }

/-- `executeMultiHopSwap` from `src/lib/uniswap/multiHopSwap.ts`
(lines 278-291): `prepareMultiHopSwap` with the error message re-wrapped. -/
def executeMultiHopSwap (now : Int) (p : MultiHopSwapParams) : Except String PreparedTx :=
  match prepareMultiHopSwap now p with
  | .ok tx => .ok tx
  | .error e => .error ("Failed to prepare multi-hop swap: " ++ e)

end MultiHop

/-! ## Concrete inputs used by the witnesses below -/

/-- A well-formed recipient address (40 hex digits). -/
def recipientA : String := "0x1111111111111111111111111111111111111111"

/-- A concrete single-hop intent: 1e15 wei of native ETH for USDC on mainnet. -/
def singleHopEthToUsdc : SingleHopSwapParams :=
  { tokenIn := MAINNET_ETH, tokenOut := MAINNET_USDC, amountIn := 1000000000000000,
    minAmountOut := 5000000, recipient := recipientA, deadline := 2000000000, chainId := 1 }

/-- A concrete single-hop intent: USDC for native ETH on mainnet. -/
def singleHopUsdcToEth : SingleHopSwapParams :=
  { tokenIn := MAINNET_USDC, tokenOut := MAINNET_ETH, amountIn := 2000000,
    minAmountOut := 0, recipient := recipientA, deadline := 2000000000, chainId := 1 }

/-- A concrete single-hop intent between two ERC-20 tokens (USDC to DAI). -/
def singleHopUsdcToDai : SingleHopSwapParams :=
  { tokenIn := MAINNET_USDC, tokenOut := MAINNET_DAI, amountIn := 2000000,
    minAmountOut := 0, recipient := recipientA, deadline := 2000000000, chainId := 1 }

/-- A concrete single-hop intent whose deadline (0) is already in the past. -/
def singleHopExpired : SingleHopSwapParams :=
  { tokenIn := MAINNET_USDC, tokenOut := MAINNET_DAI, amountIn := 1000000,
    minAmountOut := 0, recipient := recipientA, deadline := 0, chainId := 1 }

/-- A second expired single-hop intent (kept separate from `singleHopExpired`). -/
def singleHopExpiredB : SingleHopSwapParams :=
  { tokenIn := MAINNET_USDC, tokenOut := MAINNET_DAI, amountIn := 3,
    minAmountOut := 0, recipient := recipientA, deadline := 0, chainId := 1 }

/-- A concrete 3-token route: native ETH, then USDC, then DAI (mainnet). -/
def routeEthUsdcDai : List Token := [MAINNET_ETH, MAINNET_USDC, MAINNET_DAI]

/-- A concrete multi-hop intent over `routeEthUsdcDai`. -/
def multiHopEthUsdcDai : MultiHopSwapParams :=
  { route := routeEthUsdcDai, amountIn := 1000, minAmountOut := 1,
    recipient := recipientA, deadline := 2000000000, chainId := 1 }

/-- The multi-hop payload encoded from `multiHopEthUsdcDai`. -/
def multiHopEthUsdcDaiPayload : RouterPayload :=
  (MultiHop.encodeV4MultiHopActions multiHopEthUsdcDai).toOption.getD
    { commands := [], actions := [], params := [] }

/-- The transaction prepared from `singleHopEthToUsdc`. -/
def singleHopEthToUsdcTx : PreparedTx :=
  (SingleHop.prepareSingleHopSwap singleHopEthToUsdc).toOption.getD
    { toAddr := "", commands := [], actions := [], params := [], deadline := 0, value := 0 }

/-- The pool key inside the swap action encoded from `singleHopEthToUsdc`:
USDC in slot 0, the zero sentinel (for native ETH) in slot 1. -/
def poolKeyEthUsdc : PoolKey :=
  { currency0 := "0xA0b86991c6218b36c1d19D4a2e9Eb0cE3606eB48", currency1 := ZERO_ADDRESS,
    fee := 3000, tickSpacing := 60, hooks := ZERO_ADDRESS }

/-- The pool key inside the swap action encoded from `singleHopUsdcToEth`
(the same currencies: USDC in slot 0, the zero sentinel in slot 1). -/
def poolKeyUsdcEth : PoolKey :=
  { currency0 := "0xA0b86991c6218b36c1d19D4a2e9Eb0cE3606eB48", currency1 := ZERO_ADDRESS,
    fee := 3000, tickSpacing := 60, hooks := ZERO_ADDRESS }

/-! ## Order-theoretic facts about the JavaScript string comparison -/

theorem listLtb_asymm : ∀ {a b : List Char}, listLtb a b = true → listLtb b a = false
  | [], [], h => by simp [listLtb] at h
  | [], _ :: _, _ => by simp [listLtb]
  | _ :: _, [], h => by simp [listLtb] at h
  | a :: as, b :: bs, h => by
    simp only [listLtb] at h ⊢
    rcases lt_trichotomy a b with hab | hab | hab
    · simp [hab, not_lt_of_lt hab, lt_asymm hab]
    · subst hab
      simp only [lt_irrefl, if_false] at h ⊢
      exact listLtb_asymm h
    · simp [hab, not_lt_of_lt hab, lt_asymm hab] at h

theorem listLtb_total_eq : ∀ {a b : List Char},
    listLtb a b = false → listLtb b a = false → a = b
  | [], [], _, _ => rfl
  | [], _ :: _, h, _ => by simp [listLtb] at h
  | _ :: _, [], _, h' => by simp [listLtb] at h'
  | a :: as, b :: bs, h, h' => by
    simp only [listLtb] at h h'
    rcases lt_trichotomy a b with hab | hab | hab
    · simp [hab] at h
    · subst hab
      simp only [lt_irrefl, if_false] at h h'
      rw [listLtb_total_eq h h']
    · simp [hab] at h'

theorem listLtb_irrefl : ∀ {a : List Char}, listLtb a a = false
  | [] => rfl
  | _ :: as => by simp only [listLtb, lt_irrefl, if_false]; exact listLtb_irrefl (a := as)

theorem strLtJS_asymm {a b : String} (h : strLtJS a b = true) : strLtJS b a = false :=
  listLtb_asymm h

theorem strLtJS_total_eq {a b : String} (h : strLtJS a b = false)
    (h' : strLtJS b a = false) : a = b := by
  cases a; cases b
  exact congrArg String.mk (listLtb_total_eq h h')

theorem strLtJS_irrefl {a : String} : strLtJS a a = false := listLtb_irrefl

/-! ## Basic facts about the embedded functions -/

theorem getPoolTokenAddress_native {t : Token} (h : isNativeToken t.address = true) :
    getPoolTokenAddress t = getWETHAddress t.chainId := by
  simp [getPoolTokenAddress, h]

theorem getPoolTokenAddress_nonnative {t : Token} (h : isNativeToken t.address = false) :
    getPoolTokenAddress t = t.address := by
  simp [getPoolTokenAddress, h]

theorem getV4Currency_eq (t : Token) :
    getV4Currency t = if isNativeToken t.address then ZERO_ADDRESS else t.address := by
  unfold getV4Currency
  by_cases h : isNativeToken t.address
  · simp [h]
  · simp [h, getPoolTokenAddress_nonnative (Bool.of_not_eq_true h)]

theorem getWETHAddress_ne_zero (chainId : Nat) : getWETHAddress chainId ≠ ZERO_ADDRESS := by
  unfold getWETHAddress
  split <;> decide

theorem sortTokens_cases (a b : String) :
    sortTokens a b = (a, b) ∨ sortTokens a b = (b, a) := by
  unfold sortTokens
  by_cases h : strLtJS (toLowerJS a) (toLowerJS b) = true
  · exact Or.inl (by simp [h])
  · exact Or.inr (by simp [h])

theorem sortTokens_comm (a b : String) (h : toLowerJS a ≠ toLowerJS b) :
    sortTokens a b = sortTokens b a := by
  unfold sortTokens
  cases hab : strLtJS (toLowerJS a) (toLowerJS b) with
  | true => simp [hab, strLtJS_asymm hab]
  | false =>
    cases hba : strLtJS (toLowerJS b) (toLowerJS a) with
    | true => simp [hab, hba]
    | false => exact absurd (strLtJS_total_eq hab hba) h

theorem sortTokens_sorted (a b : String) (h : toLowerJS a ≠ toLowerJS b) :
    strLtJS (toLowerJS (sortTokens a b).1) (toLowerJS (sortTokens a b).2) = true := by
  unfold sortTokens
  cases hab : strLtJS (toLowerJS a) (toLowerJS b) with
  | true => simpa using hab
  | false =>
    cases hba : strLtJS (toLowerJS b) (toLowerJS a) with
    | true => simpa using hba
    | false => exact absurd (strLtJS_total_eq hab hba) h

theorem sortTokens_fst_ne_snd (a b : String) (h : toLowerJS a ≠ toLowerJS b) :
    (sortTokens a b).1 ≠ (sortTokens a b).2 := by
  intro he
  have hs := sortTokens_sorted a b h
  rw [he] at hs
  simp [strLtJS_irrefl] at hs

/-! ## C1: tick-spacing table and unknown fee tiers -/

/-- C1 counterexample: the claim says pool-key construction fails with an
`UnsupportedFeeTier` error for any fee tier outside {100, 500, 3000, 10000}.
In the code `getTickSpacing` and `createPoolKey` are total: at the unknown
tier 7 they do not fail — they silently return the MEDIUM tier's tick
spacing 60 and a complete pool key. -/
theorem C1_counterexample :
    getTickSpacing 7 = 60 ∧
    createPoolKey MAINNET_USDC MAINNET_DAI 7 ZERO_ADDRESS =
      { currency0 := MAINNET_DAI.address, currency1 := MAINNET_USDC.address,
        fee := 7, tickSpacing := 60, hooks := ZERO_ADDRESS } := by
  constructor
  · decide
  · decide

/-- C1 amended: for the four known tiers `createPoolKey` derives tick spacing
via the fixed table 100→1, 500→10, 3000→60, 10000→200; for every fee tier
outside that set it does not fail but silently uses the MEDIUM tier's tick
spacing 60. -/
theorem C1_amended_tickSpacing (tokenIn tokenOut : Token) (hooks : String) (fee : Nat)
    (hfee : fee ≠ 100 ∧ fee ≠ 500 ∧ fee ≠ 3000 ∧ fee ≠ 10000) :
    (createPoolKey tokenIn tokenOut fee hooks).tickSpacing = 60 ∧
    (createPoolKey tokenIn tokenOut 100 hooks).tickSpacing = 1 ∧
    (createPoolKey tokenIn tokenOut 500 hooks).tickSpacing = 10 ∧
    (createPoolKey tokenIn tokenOut 3000 hooks).tickSpacing = 60 ∧
    (createPoolKey tokenIn tokenOut 10000 hooks).tickSpacing = 200 := by
  refine ⟨?_, by rfl, by rfl, by rfl, by rfl⟩
  simp [createPoolKey, getTickSpacing, FEE_AMOUNTS.LOWEST, FEE_AMOUNTS.LOW,
    FEE_AMOUNTS.MEDIUM, FEE_AMOUNTS.HIGH, hfee.1, hfee.2.1, hfee.2.2.1, hfee.2.2.2]

/-- C1 witness: the amended theorem at the unknown tier 7 on USDC/DAI. -/
theorem C1_witness :
    ((7 : Nat) ≠ 100 ∧ (7 : Nat) ≠ 500 ∧ (7 : Nat) ≠ 3000 ∧ (7 : Nat) ≠ 10000) ∧
    (createPoolKey MAINNET_USDC MAINNET_DAI 7 ZERO_ADDRESS).tickSpacing = 60 :=
  ⟨by decide, (C1_amended_tickSpacing MAINNET_USDC MAINNET_DAI ZERO_ADDRESS 7 (by decide)).1⟩

/-! ## C5: single-hop action-sequence shape -/

/-- C5: for every single-hop exact-input swap the encoded action byte string
has length exactly 3 and is, in order, [`SWAP_EXACT_IN_SINGLE` (0x06),
settle(-all), take(-all)] — the planner-based encoder emits `SETTLE` (0x0b)
and `TAKE` (0x0e), the direct-ABI variant emits `SETTLE_ALL` (0x0c) and
`TAKE_ALL` (0x0f) — and the top-level command string is exactly the one byte
`V4_SWAP` (0x10).  The action bytes are the opcodes of the planned steps in
order. -/
theorem C5_actionSequenceShape (p : SingleHopSwapParams) :
    (SingleHop.encodeV4SwapActions p).actions.length = 3 ∧
    (SingleHop.encodeV4SwapActions p).actions = [0x06, 0x0b, 0x0e] ∧
    (SingleHop.encodeV4SwapActions p).actions =
      (SingleHop.encodeV4SwapActions p).params.map actionOpcode ∧
    (SingleHop.encodeV4SwapActions p).commands = [V4_SWAP_COMMAND] ∧
    (Direct.encodeV4SwapDirect p).actions.length = 3 ∧
    (Direct.encodeV4SwapDirect p).actions = [0x06, 0x0c, 0x0f] ∧
    (Direct.encodeV4SwapDirect p).actions =
      (Direct.encodeV4SwapDirect p).params.map actionOpcode ∧
    (Direct.encodeV4SwapDirect p).commands = [V4_SWAP_COMMAND] :=
  ⟨rfl, rfl, rfl, rfl, rfl, rfl, rfl, rfl⟩

/-! ## C6: pool-key argument-order invariance and sortedness -/

/-- C6 counterexample: the claim asserts that for all token pairs the
resulting pool key's two currency addresses are distinct.  For the pair
(native ETH, WETH) — two distinct configured mainnet tokens — both sides
normalize to the WETH address and `createPoolKey` returns a key whose two
currencies are equal. -/
theorem C6_counterexample :
    (createPoolKey MAINNET_ETH MAINNET_WETH 3000 ZERO_ADDRESS).currency0 =
      (createPoolKey MAINNET_ETH MAINNET_WETH 3000 ZERO_ADDRESS).currency1 := by
  decide

/-- C6 amended: for all token pairs whose pool addresses (native mapped to
the chain's WETH) are distinct case-insensitively, `createPoolKey` is
independent of argument order, and the resulting key's currencies are
distinct and strictly ascending in the case-insensitive order the code
sorts by. -/
theorem C6_amended_poolKeySortInvariant (A B : Token) (fee : Nat) (hooks : String)
    (hdist : toLowerJS (getPoolTokenAddress A) ≠ toLowerJS (getPoolTokenAddress B)) :
    createPoolKey A B fee hooks = createPoolKey B A fee hooks ∧
    (createPoolKey A B fee hooks).currency0 ≠ (createPoolKey A B fee hooks).currency1 ∧
    strLtJS (toLowerJS (createPoolKey A B fee hooks).currency0)
      (toLowerJS (createPoolKey A B fee hooks).currency1) = true := by
  refine ⟨?_, ?_, ?_⟩
  · simp only [createPoolKey]
    rw [sortTokens_comm _ _ hdist]
  · simpa [createPoolKey] using sortTokens_fst_ne_snd _ _ hdist
  · simpa [createPoolKey] using sortTokens_sorted _ _ hdist

/-- C6 witness: the amended theorem at the USDC/WETH pair with the 0.05%
fee tier. -/
theorem C6_witness :
    (toLowerJS (getPoolTokenAddress MAINNET_USDC) ≠ toLowerJS (getPoolTokenAddress MAINNET_WETH)) ∧
    createPoolKey MAINNET_USDC MAINNET_WETH 500 ZERO_ADDRESS =
      createPoolKey MAINNET_WETH MAINNET_USDC 500 ZERO_ADDRESS :=
  ⟨by decide,
   (C6_amended_poolKeySortInvariant MAINNET_USDC MAINNET_WETH 500 ZERO_ADDRESS (by decide)).1⟩

/-! ## C3: settle/take currency pairing -/

/-- C3: in every encoded payload the settle step targets exactly the
normalized input-token address (the zero sentinel when the input is native,
the token's own address otherwise) and the take step targets exactly the
normalized output-token address — for the single-hop encoder
unconditionally, and for every multi-hop intent the encoder accepts. -/
theorem C3_settleTakeCurrencyPairing :
    (∀ p : SingleHopSwapParams,
      (SingleHop.encodeV4SwapActions p).settleCurrencies =
        [if isNativeToken p.tokenIn.address then ZERO_ADDRESS else p.tokenIn.address] ∧
      (SingleHop.encodeV4SwapActions p).takeCurrencies =
        [if isNativeToken p.tokenOut.address then ZERO_ADDRESS else p.tokenOut.address]) ∧
    (∀ (p : MultiHopSwapParams) (r : RouterPayload),
      MultiHop.encodeV4MultiHopActions p = .ok r →
      r.settleCurrencies =
        [if isNativeToken (p.route.headD dummyToken).address then ZERO_ADDRESS
         else (p.route.headD dummyToken).address] ∧
      r.takeCurrencies =
        [if isNativeToken (p.route.getLastD dummyToken).address then ZERO_ADDRESS
         else (p.route.getLastD dummyToken).address]) := by
  constructor
  · intro p
    constructor
    · simp [SingleHop.encodeV4SwapActions, RouterPayload.settleCurrencies,
        v4PlannerFinalize, getV4Currency_eq]
    · simp [SingleHop.encodeV4SwapActions, RouterPayload.takeCurrencies,
        v4PlannerFinalize, getV4Currency_eq]
  · intro p r h
    unfold MultiHop.encodeV4MultiHopActions at h
    split_ifs at h
    simp only [Except.ok.injEq] at h
    subst h
    constructor
    · simp [RouterPayload.settleCurrencies, v4PlannerFinalize, getV4Currency_eq]
    · simp [RouterPayload.takeCurrencies, v4PlannerFinalize, getV4Currency_eq]

/-- C3 witness: the pairing at the concrete accepted multi-hop intent
ETH→USDC→DAI (settle targets the zero sentinel, take targets DAI). -/
theorem C3_witness :
    multiHopEthUsdcDaiPayload.settleCurrencies = [ZERO_ADDRESS] ∧
    multiHopEthUsdcDaiPayload.takeCurrencies = [MAINNET_DAI.address] := by
  have h : MultiHop.encodeV4MultiHopActions multiHopEthUsdcDai = .ok multiHopEthUsdcDaiPayload := by
    rfl
  have h2 := C3_settleTakeCurrencyPairing.2 multiHopEthUsdcDai multiHopEthUsdcDaiPayload h
  simpa using h2

/-! ## C4: native-value conditional -/

/-- C4: for every transaction the prepare functions return, the attached
native value is the input amount exactly when the input token is the chain's
native asset and zero otherwise; for positive input amounts (which every
validated multi-hop intent has) this is an equivalence. -/
theorem C4_nativeValueConditional :
    (∀ (p : SingleHopSwapParams) (tx : PreparedTx),
      SingleHop.prepareSingleHopSwap p = .ok tx →
      tx.value = (if isNativeToken p.tokenIn.address then p.amountIn else 0) ∧
      (0 < p.amountIn →
        (tx.value = p.amountIn ↔ isNativeToken p.tokenIn.address = true))) ∧
    (∀ (now : Int) (p : MultiHopSwapParams) (tx : PreparedTx),
      MultiHop.prepareMultiHopSwap now p = .ok tx →
      tx.value = (if isNativeToken (p.route.headD dummyToken).address then p.amountIn else 0) ∧
      (tx.value = p.amountIn ↔ isNativeToken (p.route.headD dummyToken).address = true)) := by
  constructor
  · intro p tx h
    unfold SingleHop.prepareSingleHopSwap at h
    cases hr : getUniversalRouterAddress p.chainId with
    | error e => rw [hr] at h; cases h
    | ok addr =>
      rw [hr] at h
      simp only [Except.ok.injEq] at h
      subst h
      refine ⟨rfl, ?_⟩
      intro hpos
      by_cases hn : isNativeToken p.tokenIn.address
      · simp [hn]
      · simp only [hn, if_false, Bool.false_eq_true, iff_false]
        intro he
        omega
  · intro now p tx h
    unfold MultiHop.prepareMultiHopSwap at h
    by_cases hv : (MultiHop.validateMultiHopSwapParams now p).valid
    · rw [if_neg (by simp [hv])] at h
      cases hr : getUniversalRouterAddress p.chainId with
      | error e => rw [hr] at h; cases h
      | ok addr =>
        rw [hr] at h
        cases he : MultiHop.encodeV4MultiHopActions p with
        | error e => rw [he] at h; cases h
        | ok enc =>
          rw [he] at h
          simp only [Except.ok.injEq] at h
          subst h
          refine ⟨rfl, ?_⟩
          have hpos : 0 < p.amountIn := by
            unfold MultiHop.validateMultiHopSwapParams at hv
            split_ifs at hv with h1
            omega
          cases hn : isNativeToken (p.route.headD dummyToken).address with
          | true => simp
          | false =>
            simp only [Bool.false_eq_true, if_false, iff_false]
            intro he2
            omega
    · rw [if_pos (by simp [Bool.not_eq_true] at hv; simp [hv])] at h
      cases h

/-- C4 witness: the conditional at the concrete native-input single-hop
intent (value equals the full 1e15 wei input). -/
theorem C4_witness :
    singleHopEthToUsdcTx.value =
      (if isNativeToken singleHopEthToUsdc.tokenIn.address
       then singleHopEthToUsdc.amountIn else 0) ∧
    (singleHopEthToUsdcTx.value = singleHopEthToUsdc.amountIn ↔
      isNativeToken singleHopEthToUsdc.tokenIn.address = true) := by
  have h : SingleHop.prepareSingleHopSwap singleHopEthToUsdc = .ok singleHopEthToUsdcTx := by
    rfl
  have h2 := C4_nativeValueConditional.1 singleHopEthToUsdc singleHopEthToUsdcTx h
  exact ⟨h2.1, h2.2 (by decide)⟩

/-! ## C8: deadline handling -/

theorem validateMultiHop_valid_future_deadline (now : Int) (p : MultiHopSwapParams)
    (h : (MultiHop.validateMultiHopSwapParams now p).valid = true) : now < p.deadline := by
  unfold MultiHop.validateMultiHopSwapParams at h
  split_ifs at h
  omega

theorem prepareMultiHop_ok_valid (now : Int) (p : MultiHopSwapParams) (tx : PreparedTx)
    (h : MultiHop.prepareMultiHopSwap now p = .ok tx) :
    (MultiHop.validateMultiHopSwapParams now p).valid = true := by
  unfold MultiHop.prepareMultiHopSwap at h
  by_cases hv : (MultiHop.validateMultiHopSwapParams now p).valid
  · exact hv
  · rw [if_pos (by simp [Bool.not_eq_true] at hv; simp [hv])] at h
    cases h

theorem validateSingleHop_valid_future_deadline (now : Int) (p : SingleHopSwapParams)
    (h : (SingleHop.validateSingleHopSwapParams now p).valid = true) : now < p.deadline := by
  unfold SingleHop.validateSingleHopSwapParams at h
  split_ifs at h
  omega

/-- C8 counterexample: a single-hop intent whose deadline (0) lies at or
before any realistic current time (for concreteness, `now = 1700000000`) is
flagged by the repository's own `validateSingleHopSwapParams`, yet the
single-hop encode entry point `executeSingleHopSwap` performs no deadline
check at all: it encodes the intent and returns a payload. -/
theorem C8_counterexample :
    singleHopExpired.deadline ≤ 1700000000 ∧
    (SingleHop.validateSingleHopSwapParams 1700000000 singleHopExpired).valid = false ∧
    (SingleHop.executeSingleHopSwap singleHopExpired).toOption.isSome = true := by
  refine ⟨by decide, by decide, by decide⟩

/-- C8 amended: every multi-hop intent that reaches encoding (through
`validateMultiHopSwapParams`, `prepareMultiHopSwap` or
`executeMultiHopSwap`) has a strictly future deadline — expired intents are
rejected before any encoding; on the single-hop side only the (uncalled)
validator `validateSingleHopSwapParams` enforces this, while the encode
entry point `executeSingleHopSwap` performs no deadline check whatsoever:
whenever its amount and chain validations pass it behaves exactly like
`prepareSingleHopSwap`, whatever the deadline. -/
theorem C8_amended_deadlineRejection :
    (∀ (now : Int) (p : MultiHopSwapParams),
      (MultiHop.validateMultiHopSwapParams now p).valid = true → now < p.deadline) ∧
    (∀ (now : Int) (p : MultiHopSwapParams) (tx : PreparedTx),
      MultiHop.prepareMultiHopSwap now p = .ok tx → now < p.deadline) ∧
    (∀ (now : Int) (p : MultiHopSwapParams) (tx : PreparedTx),
      MultiHop.executeMultiHopSwap now p = .ok tx → now < p.deadline) ∧
    (∀ (now : Int) (p : SingleHopSwapParams),
      (SingleHop.validateSingleHopSwapParams now p).valid = true → now < p.deadline) ∧
    (∀ p : SingleHopSwapParams, 0 < p.amountIn → 0 ≤ p.minAmountOut →
      p.tokenIn.chainId = p.tokenOut.chainId →
      SingleHop.executeSingleHopSwap p = SingleHop.prepareSingleHopSwap p) := by
  refine ⟨validateMultiHop_valid_future_deadline, ?_, ?_,
    validateSingleHop_valid_future_deadline, ?_⟩
  · intro now p tx h
    exact validateMultiHop_valid_future_deadline now p (prepareMultiHop_ok_valid now p tx h)
  · intro now p tx h
    unfold MultiHop.executeMultiHopSwap at h
    cases hp : MultiHop.prepareMultiHopSwap now p with
    | error e => rw [hp] at h; cases h
    | ok tx' =>
      exact validateMultiHop_valid_future_deadline now p (prepareMultiHop_ok_valid now p tx' hp)
  · intro p hpos hmin hchain
    unfold SingleHop.executeSingleHopSwap
    rw [if_neg (by omega), if_neg (by omega), if_neg (by simp [hchain])]

/-- C8 witness: the amended theorem's single-hop conjunct at a concrete
expired-deadline intent: `executeSingleHopSwap` coincides with
`prepareSingleHopSwap` even though the deadline is 0. -/
theorem C8_witness :
    SingleHop.executeSingleHopSwap singleHopExpiredB =
      SingleHop.prepareSingleHopSwap singleHopExpiredB :=
  C8_amended_deadlineRejection.2.2.2.2 singleHopExpiredB (by decide) (by decide) (by decide)

/-! ## C10: silent medium-fee fallback in `encodeRoutePath` -/

theorem buildPathKeys_length : ∀ (cin : String) (pairs : List (PoolKey × Token)),
    (buildPathKeys cin pairs).length = pairs.length
  | _, [] => rfl
  | cin, (pk, t) :: rest => by
    simp only [buildPathKeys, List.length_cons]
    rw [buildPathKeys_length]

theorem buildPathKeys_fee : ∀ (cin : String) (pairs : List (PoolKey × Token)) (i : Nat),
    i < pairs.length →
    ((buildPathKeys cin pairs).getD i dummyPathKey).fee =
      ((pairs.getD i (emptyPoolKey, dummyToken)).1).fee
  | _, [], i, hi => by simp at hi
  | cin, (pk, t) :: rest, 0, _ => by simp [buildPathKeys]
  | cin, (pk, t) :: rest, i + 1, hi => by
    simp only [buildPathKeys, List.getD_cons_succ]
    exact buildPathKeys_fee _ rest i (by simpa using hi)

theorem routePoolKeys_getD (route : List Token) (fees : List Nat) (i : Nat)
    (hi : i < route.length - 1) :
    (routePoolKeys route fees).getD i emptyPoolKey =
      createPoolKey (route.getD i dummyToken) (route.getD (i + 1) dummyToken)
        (feeFromList fees i) ZERO_ADDRESS := by
  unfold routePoolKeys
  rw [List.getD_eq_getElem _ _ (by simpa using hi)]
  simp

/-- C10: when the caller-supplied per-hop fee list misses a hop (too short)
or lists 0 for it, `encodeRoutePath` raises no error: it builds that hop's
pool key — and hence that hop's path key — with the medium tier fee 3000
in place of the supplied value. -/
theorem C10_mediumFeeFallback (route : List Token) (fees : List Nat) (i : Nat)
    (hlen : 3 ≤ route.length) (hi : i < route.length - 1)
    (hfee : fees.length ≤ i ∨ fees.get? i = some 0) :
    feeFromList fees i = 3000 ∧
    ((routePoolKeys route fees).getD i emptyPoolKey).fee = 3000 ∧
    ∃ pathKeys, encodeRoutePath route (some fees) = .ok pathKeys ∧
      (pathKeys.getD i dummyPathKey).fee = 3000 := by
  have hfee3000 : feeFromList fees i = 3000 := by
    unfold feeFromList
    rcases hfee with hshort | hzero
    · rw [List.get?_eq_none.2 hshort]
      rfl
    · rw [hzero]
      rfl
  have hpk : ((routePoolKeys route fees).getD i emptyPoolKey).fee = 3000 := by
    rw [routePoolKeys_getD route fees i hi]
    simpa [createPoolKey] using hfee3000
  refine ⟨hfee3000, hpk, ?_⟩
  refine ⟨buildPathKeys (getPoolTokenAddress (route.headD dummyToken))
      ((routePoolKeys route fees).zip (route.drop 1)), ?_, ?_⟩
  · unfold encodeRoutePath
    rw [if_neg (by omega)]
    rfl
  · have hlens : (routePoolKeys route fees).length = route.length - 1 := by
      simp [routePoolKeys]
    have hdrop : (route.drop 1).length = route.length - 1 := by
      simp
    have hzip : ((routePoolKeys route fees).zip (route.drop 1)).length = route.length - 1 := by
      simp [List.length_zip, hlens, hdrop]
    rw [buildPathKeys_fee _ _ i (by rw [hzip]; exact hi)]
    have : (((routePoolKeys route fees).zip (route.drop 1)).getD i (emptyPoolKey, dummyToken)).1 =
        (routePoolKeys route fees).getD i emptyPoolKey := by
      rw [List.getD_eq_getElem _ _ (by rw [hzip]; exact hi),
        List.getD_eq_getElem _ _ (by rw [hlens]; exact hi)]
      simp [List.getElem_zip]
    rw [this, hpk]

/-- C10 witness: the fallback at the route ETH→USDC→DAI with the fee list
`[0]` — hop 0's entry is 0 and hop 1's entry is missing; the hop-0 pool and
path keys carry fee 3000 and no error is raised. -/
theorem C10_witness :
    feeFromList [0] 0 = 3000 ∧
    ((routePoolKeys routeEthUsdcDai [0]).getD 0 emptyPoolKey).fee = 3000 ∧
    ∃ pathKeys, encodeRoutePath routeEthUsdcDai (some [0]) = .ok pathKeys ∧
      (pathKeys.getD 0 dummyPathKey).fee = 3000 :=
  C10_mediumFeeFallback routeEthUsdcDai [0] 0 (by decide) (by decide) (Or.inr rfl)

/-! ## C9: multi-hop path length and intermediate currencies -/

theorem feeFromList_succ (fees : List Nat) (i : Nat) :
    feeFromList fees (i + 1) = feeFromList (fees.drop 1) i := by
  unfold feeFromList
  rw [List.get?_drop]
  rw [Nat.add_comm]

theorem routePoolKeys_cons (t0 t1 : Token) (rest : List Token) (fees : List Nat) :
    routePoolKeys (t0 :: t1 :: rest) fees =
      createPoolKey t0 t1 (feeFromList fees 0) ZERO_ADDRESS
        :: routePoolKeys (t1 :: rest) (fees.drop 1) := by
  unfold routePoolKeys
  simp only [List.length_cons, Nat.add_sub_cancel]
  rw [List.range_succ_eq_map]
  simp only [List.map_cons, List.map_map]
  congr 1
  apply List.map_congr_left
  intro i _
  simp only [Function.comp_apply, List.getD_cons_succ]
  rw [feeFromList_succ]

theorem hopCurrencyOut (a0 a1 : String) (h : toLowerJS a0 ≠ toLowerJS a1) :
    (if toLowerJS a0 == toLowerJS (sortTokens a0 a1).1 then (sortTokens a0 a1).2
     else (sortTokens a0 a1).1) = a1 := by
  unfold sortTokens
  cases hs : strLtJS (toLowerJS a0) (toLowerJS a1) with
  | true => simp [hs]
  | false => simp [hs, beq_iff_eq, h]

theorem isValidTokenPair_spec {A B : Token} (h : isValidTokenPair A B = true) :
    A.chainId = B.chainId ∧
    toLowerJS (getPoolTokenAddress A) ≠ toLowerJS (getPoolTokenAddress B) := by
  unfold isValidTokenPair at h
  by_cases hc : (A.chainId != B.chainId) = true
  · rw [if_pos hc] at h
    cases h
  · rw [if_neg hc] at h
    refine ⟨by simpa using hc, by simpa using h⟩

theorem encodeRoute_loop : ∀ (t0 : Token) (ts : List Token) (fees : List Nat),
    ((t0 :: ts).zip ts).all (fun q => isValidTokenPair q.1 q.2) = true →
    (buildPathKeys (getPoolTokenAddress t0) ((routePoolKeys (t0 :: ts) fees).zip ts)).length
        = ts.length ∧
    ∀ i, i < ts.length →
      ((buildPathKeys (getPoolTokenAddress t0)
          ((routePoolKeys (t0 :: ts) fees).zip ts)).getD i dummyPathKey).intermediateCurrency =
        (if isNativeToken (ts.getD i dummyToken).address then ZERO_ADDRESS
         else (ts.getD i dummyToken).address)
  | t0, [], fees, _ => by
    refine ⟨rfl, ?_⟩
    intro i hi
    simp at hi
  | t0, t1 :: ts', fees, hadj => by
    rw [routePoolKeys_cons]
    have hadj' : isValidTokenPair t0 t1 = true ∧
        ((t1 :: ts').zip ts').all (fun q => isValidTokenPair q.1 q.2) = true := by
      simpa [List.all_cons] using hadj
    have hpair := isValidTokenPair_spec hadj'.1
    simp only [List.zip_cons_cons, buildPathKeys]
    have hout : (if toLowerJS (getPoolTokenAddress t0) ==
          toLowerJS (createPoolKey t0 t1 (feeFromList fees 0) ZERO_ADDRESS).currency0
        then (createPoolKey t0 t1 (feeFromList fees 0) ZERO_ADDRESS).currency1
        else (createPoolKey t0 t1 (feeFromList fees 0) ZERO_ADDRESS).currency0)
        = getPoolTokenAddress t1 := by
      simpa [createPoolKey] using
        hopCurrencyOut (getPoolTokenAddress t0) (getPoolTokenAddress t1) hpair.2
    rw [hout]
    have ih := encodeRoute_loop t1 ts' (fees.drop 1) hadj'.2
    refine ⟨by simpa using ih.1, ?_⟩
    intro i hi
    cases i with
    | zero =>
      simp only [List.getD_cons_zero, List.getD_cons_zero]
      cases hn : isNativeToken t1.address with
      | true => simp
      | false => simp [getPoolTokenAddress_nonnative hn]
    | succ j =>
      simp only [List.getD_cons_succ]
      exact ih.2 j (by simpa using hi)

/-- C9: for every valid route of at least 3 tokens, `encodeRoutePath`
succeeds with exactly N−1 path keys, the i-th one's intermediate currency
being route token i+1's address with the zero sentinel substituted when that
token is the native asset; any route of fewer than 3 tokens fails with the
invalid-route error. -/
theorem C9_multiHopPathShape :
    (∀ (route : List Token) (fees : Option (List Nat)),
      isValidRoute route = true → 3 ≤ route.length →
      ∃ pathKeys, encodeRoutePath route fees = .ok pathKeys ∧
        pathKeys.length = route.length - 1 ∧
        ∀ i, i < pathKeys.length →
          (pathKeys.getD i dummyPathKey).intermediateCurrency =
            (if isNativeToken (route.getD (i + 1) dummyToken).address then ZERO_ADDRESS
             else (route.getD (i + 1) dummyToken).address)) ∧
    (∀ (route : List Token) (fees : Option (List Nat)), route.length < 3 →
      encodeRoutePath route fees = .error "Route must have at least 3 tokens for multi-hop") := by
  constructor
  · intro route fees hval hlen
    cases route with
    | nil => simp at hlen
    | cons t0 ts =>
      have hadj : ((t0 :: ts).zip ts).all (fun q => isValidTokenPair q.1 q.2) = true := by
        unfold isValidRoute at hval
        rw [if_neg (by simp only [List.length_cons] at hlen ⊢; omega)] at hval
        rw [Bool.and_eq_true] at hval
        simpa using hval.2
      have hloop := encodeRoute_loop t0 ts
        ((fees.getD (List.replicate ((t0 :: ts).length - 1) FEE_AMOUNTS.MEDIUM))) hadj
      refine ⟨buildPathKeys (getPoolTokenAddress t0)
          ((routePoolKeys (t0 :: ts)
            (fees.getD (List.replicate ((t0 :: ts).length - 1) FEE_AMOUNTS.MEDIUM))).zip ts),
        ?_, ?_, ?_⟩
      · unfold encodeRoutePath
        rw [if_neg (by omega)]
        rfl
      · simpa using hloop.1
      · intro i hi
        rw [hloop.1] at hi
        have := hloop.2 i hi
        simpa using this
  · intro route fees hshort
    unfold encodeRoutePath
    rw [if_pos hshort]

/-- C9 witness: the theorem at the concrete valid route ETH→USDC→DAI with
no fee list, and at the short route [USDC] for the error half. -/
theorem C9_witness :
    (∃ pathKeys, encodeRoutePath routeEthUsdcDai none = .ok pathKeys ∧
      pathKeys.length = routeEthUsdcDai.length - 1 ∧
      ∀ i, i < pathKeys.length →
        (pathKeys.getD i dummyPathKey).intermediateCurrency =
          (if isNativeToken (routeEthUsdcDai.getD (i + 1) dummyToken).address then ZERO_ADDRESS
           else (routeEthUsdcDai.getD (i + 1) dummyToken).address)) ∧
    encodeRoutePath [MAINNET_USDC] none =
      .error "Route must have at least 3 tokens for multi-hop" :=
  ⟨C9_multiHopPathShape.1 routeEthUsdcDai none (by decide) (by decide),
   C9_multiHopPathShape.2 [MAINNET_USDC] none (by decide)⟩

/-! ## C7: direction consistency -/

theorem zeroForOne_core (nIn nOut : Bool) (aIn aOut vIn : String)
    (hlow : toLowerJS aIn ≠ toLowerJS aOut)
    (hv : vIn = if nIn then ZERO_ADDRESS else aIn)
    (hnb : nIn = true → nOut = true → False)
    (hzIn : nIn = false → aIn ≠ ZERO_ADDRESS)
    (hzOut : nOut = false → aOut ≠ ZERO_ADDRESS) :
    ((toLowerJS aIn == toLowerJS (sortTokens aIn aOut).1) = true ↔
      vIn = (if nIn && ((sortTokens aIn aOut).1 == aIn) then ZERO_ADDRESS
             else if nOut && ((sortTokens aIn aOut).1 == aOut) then ZERO_ADDRESS
             else (sortTokens aIn aOut).1)) := by
  have hraw : aIn ≠ aOut := fun he => hlow (congrArg toLowerJS he)
  rcases sortTokens_cases aIn aOut with hsort | hsort <;> rw [hsort]
  · -- sorted pair is (aIn, aOut): the flag is true
    simp only [beq_self_eq_true, if_true, true_iff, Bool.and_true]
    have hne : (aIn == aOut) = false := by simp [hraw]
    cases hni : nIn with
    | true => simp [hv, hni]
    | false => simp [hv, hni, hne]
  · -- sorted pair is (aOut, aIn): the flag is false
    have hflag : (toLowerJS aIn == toLowerJS aOut) = false := by simp [hlow]
    simp only [hflag, Bool.false_eq_true, false_iff]
    have hne : (aOut == aIn) = false := by
      simp only [beq_eq_false_iff_ne, ne_eq]
      exact fun he => hraw he.symm
    simp only [hne, Bool.and_false, Bool.false_eq_true, if_false, beq_self_eq_true, Bool.and_true]
    cases hno : nOut with
    | true =>
      simp only [if_true]
      cases hni : nIn with
      | true => exact absurd (hnb hni hno) not_false
      | false =>
        rw [hv, hni]
        simp only [Bool.false_eq_true, if_false]
        exact hzIn hni
    | false =>
      simp only [Bool.false_eq_true, if_false]
      cases hni : nIn with
      | true =>
        rw [hv, hni]
        simp only [if_true]
        exact fun he => (hzOut hno) he.symm
      | false =>
        rw [hv, hni]
        simp only [Bool.false_eq_true, if_false]
        exact hraw

/-- C7: for every valid token pair whose non-native sides carry a nonzero
address, the `zeroForOne` flag placed in the encoded swap action is true
exactly when the normalized (zero-sentinel for native) input-token address
equals slot 0 of the pool key placed in that same action. -/
theorem C7_directionConsistency (p : SingleHopSwapParams)
    (hpair : isValidTokenPair p.tokenIn p.tokenOut = true)
    (hin : p.tokenIn.address ≠ ZERO_ADDRESS) (hout : p.tokenOut.address ≠ ZERO_ADDRESS) :
    ∀ (pk : PoolKey) (z : Bool) (amt mo : Int) (hd : String) (rest : List V4ActionParams),
      (SingleHop.encodeV4SwapActions p).params =
        V4ActionParams.swapExactInSingle pk z amt mo hd :: rest →
      (z = true ↔ getV4Currency p.tokenIn = pk.currency0) := by
  intro pk z amt mo hd rest hparams
  have hspec := isValidTokenPair_spec hpair
  simp only [SingleHop.encodeV4SwapActions, v4PlannerFinalize, List.cons.injEq,
    V4ActionParams.swapExactInSingle.injEq] at hparams
  obtain ⟨⟨hpk, hz, _, _, _⟩, _⟩ := hparams
  have hcore := zeroForOne_core (isNativeToken p.tokenIn.address)
    (isNativeToken p.tokenOut.address) (getPoolTokenAddress p.tokenIn)
    (getPoolTokenAddress p.tokenOut) (getV4Currency p.tokenIn) hspec.2
    rfl
    (fun h1 h2 => hspec.2 (by
      rw [getPoolTokenAddress_native h1, getPoolTokenAddress_native h2, hspec.1]))
    (fun hf => by rw [getPoolTokenAddress_nonnative hf]; exact hin)
    (fun hf => by rw [getPoolTokenAddress_nonnative hf]; exact hout)
  rw [← hz, ← hpk]
  exact hcore

/-- C7 witness: the theorem at the concrete USDC→ETH intent, whose encoded
flag is true and whose placed pool key has the normalized input (USDC) in
slot 0. -/
theorem C7_witness : getV4Currency singleHopUsdcToEth.tokenIn = poolKeyUsdcEth.currency0 :=
  (C7_directionConsistency singleHopUsdcToEth (by decide) (by decide) (by decide)
    poolKeyUsdcEth true singleHopUsdcToEth.amountIn singleHopUsdcToEth.minAmountOut "0x"
    [ .settle (getV4Currency singleHopUsdcToEth.tokenIn) singleHopUsdcToEth.amountIn true,
      .take (getV4Currency singleHopUsdcToEth.tokenOut) singleHopUsdcToEth.recipient 0 ]
    (by decide)).1 rfl

/-! ## C2: native sides of encoded pool keys are the zero sentinel -/

theorem nested_eq_or (c1 c2 : Bool) (z c : String) :
    (if c1 then z else if c2 then z else c) = (if c1 || c2 then z else c) := by
  cases c1 <;> cases c2 <;> simp

theorem orSubst_ne_A (c zA zB : String) (nA nB : Bool) (hnA : nA = true)
    (hz : zA ≠ ZERO_ADDRESS) :
    (if (nA && (c == zA)) || (nB && (c == zB)) then ZERO_ADDRESS else c) ≠ zA := by
  by_cases h : ((nA && (c == zA)) || (nB && (c == zB))) = true
  · rw [if_pos h]
    exact fun he => hz he.symm
  · rw [if_neg h]
    intro he
    apply h
    simp [hnA, he]

theorem orSubst_ne_B (c zA zB : String) (nA nB : Bool) (hnB : nB = true)
    (hz : zB ≠ ZERO_ADDRESS) :
    (if (nA && (c == zA)) || (nB && (c == zB)) then ZERO_ADDRESS else c) ≠ zB := by
  by_cases h : ((nA && (c == zA)) || (nB && (c == zB))) = true
  · rw [if_pos h]
    exact fun he => hz he.symm
  · rw [if_neg h]
    intro he
    apply h
    simp [hnB, he]

theorem orSubst_zero_A (c zA zB : String) (nA nB : Bool) (hnA : nA = true) (hc : c = zA) :
    (if (nA && (c == zA)) || (nB && (c == zB)) then ZERO_ADDRESS else c) = ZERO_ADDRESS := by
  rw [if_pos (by simp [hnA, hc])]

theorem orSubst_zero_B (c zA zB : String) (nA nB : Bool) (hnB : nB = true) (hc : c = zB) :
    (if (nA && (c == zA)) || (nB && (c == zB)) then ZERO_ADDRESS else c) = ZERO_ADDRESS := by
  rw [if_pos (by simp [hnB, hc])]

theorem substPoolKey_native (t0 t1 : Token) (fee : Nat) :
    (isNativeToken t0.address = true →
      (MultiHop.substPoolKey t0 t1
        (createPoolKey t0 t1 fee ZERO_ADDRESS)).currency0 ≠ getWETHAddress t0.chainId ∧
      (MultiHop.substPoolKey t0 t1
        (createPoolKey t0 t1 fee ZERO_ADDRESS)).currency1 ≠ getWETHAddress t0.chainId ∧
      ((MultiHop.substPoolKey t0 t1
          (createPoolKey t0 t1 fee ZERO_ADDRESS)).currency0 = ZERO_ADDRESS ∨
       (MultiHop.substPoolKey t0 t1
          (createPoolKey t0 t1 fee ZERO_ADDRESS)).currency1 = ZERO_ADDRESS)) ∧
    (isNativeToken t1.address = true →
      (MultiHop.substPoolKey t0 t1
        (createPoolKey t0 t1 fee ZERO_ADDRESS)).currency0 ≠ getWETHAddress t1.chainId ∧
      (MultiHop.substPoolKey t0 t1
        (createPoolKey t0 t1 fee ZERO_ADDRESS)).currency1 ≠ getWETHAddress t1.chainId ∧
      ((MultiHop.substPoolKey t0 t1
          (createPoolKey t0 t1 fee ZERO_ADDRESS)).currency0 = ZERO_ADDRESS ∨
       (MultiHop.substPoolKey t0 t1
          (createPoolKey t0 t1 fee ZERO_ADDRESS)).currency1 = ZERO_ADDRESS)) := by
  have hc0 : (MultiHop.substPoolKey t0 t1 (createPoolKey t0 t1 fee ZERO_ADDRESS)).currency0 =
      (if (isNativeToken t0.address &&
            ((sortTokens (getPoolTokenAddress t0) (getPoolTokenAddress t1)).1
              == getPoolTokenAddress t0)) ||
          (isNativeToken t1.address &&
            ((sortTokens (getPoolTokenAddress t0) (getPoolTokenAddress t1)).1
              == getPoolTokenAddress t1))
       then ZERO_ADDRESS
       else (sortTokens (getPoolTokenAddress t0) (getPoolTokenAddress t1)).1) := rfl
  have hc1 : (MultiHop.substPoolKey t0 t1 (createPoolKey t0 t1 fee ZERO_ADDRESS)).currency1 =
      (if (isNativeToken t0.address &&
            ((sortTokens (getPoolTokenAddress t0) (getPoolTokenAddress t1)).2
              == getPoolTokenAddress t0)) ||
          (isNativeToken t1.address &&
            ((sortTokens (getPoolTokenAddress t0) (getPoolTokenAddress t1)).2
              == getPoolTokenAddress t1))
       then ZERO_ADDRESS
       else (sortTokens (getPoolTokenAddress t0) (getPoolTokenAddress t1)).2) := rfl
  constructor
  · intro hn0
    have hW : getPoolTokenAddress t0 = getWETHAddress t0.chainId :=
      getPoolTokenAddress_native hn0
    refine ⟨?_, ?_, ?_⟩
    · rw [hc0, ← hW]
      exact orSubst_ne_A _ _ _ _ _ hn0 (hW ▸ getWETHAddress_ne_zero t0.chainId)
    · rw [hc1, ← hW]
      exact orSubst_ne_A _ _ _ _ _ hn0 (hW ▸ getWETHAddress_ne_zero t0.chainId)
    · rcases sortTokens_cases (getPoolTokenAddress t0) (getPoolTokenAddress t1) with hs | hs
    -- the native side sits in slot 0 or in slot 1 depending on the sort
      · exact Or.inl (by rw [hc0]; exact orSubst_zero_A _ _ _ _ _ hn0 (by rw [hs]))
      · exact Or.inr (by rw [hc1]; exact orSubst_zero_A _ _ _ _ _ hn0 (by rw [hs]))
  · intro hn1
    have hW : getPoolTokenAddress t1 = getWETHAddress t1.chainId :=
      getPoolTokenAddress_native hn1
    refine ⟨?_, ?_, ?_⟩
    · rw [hc0, ← hW]
      exact orSubst_ne_B _ _ _ _ _ hn1 (hW ▸ getWETHAddress_ne_zero t1.chainId)
    · rw [hc1, ← hW]
      exact orSubst_ne_B _ _ _ _ _ hn1 (hW ▸ getWETHAddress_ne_zero t1.chainId)
    · rcases sortTokens_cases (getPoolTokenAddress t0) (getPoolTokenAddress t1) with hs | hs
      · exact Or.inr (by rw [hc1]; exact orSubst_zero_B _ _ _ _ _ hn1 (by rw [hs]))
      · exact Or.inl (by rw [hc0]; exact orSubst_zero_B _ _ _ _ _ hn1 (by rw [hs]))

theorem singleHopKey_native (p : SingleHopSwapParams) :
    (isNativeToken p.tokenIn.address = true →
      SingleHop.poolKeyCurrency0 p ≠ getWETHAddress p.tokenIn.chainId ∧
      SingleHop.poolKeyCurrency1 p ≠ getWETHAddress p.tokenIn.chainId ∧
      (SingleHop.poolKeyCurrency0 p = ZERO_ADDRESS ∨
       SingleHop.poolKeyCurrency1 p = ZERO_ADDRESS)) ∧
    (isNativeToken p.tokenOut.address = true →
      SingleHop.poolKeyCurrency0 p ≠ getWETHAddress p.tokenOut.chainId ∧
      SingleHop.poolKeyCurrency1 p ≠ getWETHAddress p.tokenOut.chainId ∧
      (SingleHop.poolKeyCurrency0 p = ZERO_ADDRESS ∨
       SingleHop.poolKeyCurrency1 p = ZERO_ADDRESS)) := by
  have hc0 : SingleHop.poolKeyCurrency0 p =
      (if (isNativeToken p.tokenIn.address &&
            ((sortTokens (getPoolTokenAddress p.tokenIn) (getPoolTokenAddress p.tokenOut)).1
              == getPoolTokenAddress p.tokenIn)) ||
          (isNativeToken p.tokenOut.address &&
            ((sortTokens (getPoolTokenAddress p.tokenIn) (getPoolTokenAddress p.tokenOut)).1
              == getPoolTokenAddress p.tokenOut))
       then ZERO_ADDRESS
       else (sortTokens (getPoolTokenAddress p.tokenIn) (getPoolTokenAddress p.tokenOut)).1) :=
    nested_eq_or _ _ _ _
  have hc1 : SingleHop.poolKeyCurrency1 p =
      (if (isNativeToken p.tokenIn.address &&
            ((sortTokens (getPoolTokenAddress p.tokenIn) (getPoolTokenAddress p.tokenOut)).2
              == getPoolTokenAddress p.tokenIn)) ||
          (isNativeToken p.tokenOut.address &&
            ((sortTokens (getPoolTokenAddress p.tokenIn) (getPoolTokenAddress p.tokenOut)).2
              == getPoolTokenAddress p.tokenOut))
       then ZERO_ADDRESS
       else (sortTokens (getPoolTokenAddress p.tokenIn) (getPoolTokenAddress p.tokenOut)).2) :=
    nested_eq_or _ _ _ _
  constructor
  · intro hn0
    have hW : getPoolTokenAddress p.tokenIn = getWETHAddress p.tokenIn.chainId :=
      getPoolTokenAddress_native hn0
    refine ⟨?_, ?_, ?_⟩
    · rw [hc0, ← hW]
      exact orSubst_ne_A _ _ _ _ _ hn0 (hW ▸ getWETHAddress_ne_zero p.tokenIn.chainId)
    · rw [hc1, ← hW]
      exact orSubst_ne_A _ _ _ _ _ hn0 (hW ▸ getWETHAddress_ne_zero p.tokenIn.chainId)
    · rcases sortTokens_cases (getPoolTokenAddress p.tokenIn)
        (getPoolTokenAddress p.tokenOut) with hs | hs
      · exact Or.inl (by rw [hc0]; exact orSubst_zero_A _ _ _ _ _ hn0 (by rw [hs]))
      · exact Or.inr (by rw [hc1]; exact orSubst_zero_A _ _ _ _ _ hn0 (by rw [hs]))
  · intro hn1
    have hW : getPoolTokenAddress p.tokenOut = getWETHAddress p.tokenOut.chainId :=
      getPoolTokenAddress_native hn1
    refine ⟨?_, ?_, ?_⟩
    · rw [hc0, ← hW]
      exact orSubst_ne_B _ _ _ _ _ hn1 (hW ▸ getWETHAddress_ne_zero p.tokenOut.chainId)
    · rw [hc1, ← hW]
      exact orSubst_ne_B _ _ _ _ _ hn1 (hW ▸ getWETHAddress_ne_zero p.tokenOut.chainId)
    · rcases sortTokens_cases (getPoolTokenAddress p.tokenIn)
        (getPoolTokenAddress p.tokenOut) with hs | hs
      · exact Or.inr (by rw [hc1]; exact orSubst_zero_B _ _ _ _ _ hn1 (by rw [hs]))
      · exact Or.inl (by rw [hc0]; exact orSubst_zero_B _ _ _ _ _ hn1 (by rw [hs]))

theorem hopPoolKeys_getD (route : List Token) (i : Nat) (hi : i + 1 < route.length) :
    (MultiHop.hopPoolKeys route).getD i emptyPoolKey =
      MultiHop.substPoolKey (route.getD i dummyToken) (route.getD (i + 1) dummyToken)
        (createPoolKey (route.getD i dummyToken) (route.getD (i + 1) dummyToken)
          FEE_AMOUNTS.MEDIUM ZERO_ADDRESS) := by
  unfold MultiHop.hopPoolKeys
  rw [List.getD_eq_getElem _ _ (by simp only [List.length_map, List.length_range]; omega)]
  simp

/-- C2: in the pool key carried inside the encoded single-hop swap action,
and in every per-hop pool key the multi-hop encoder builds for its swap
action, a side that is the chain's native asset is represented by the
all-zero sentinel: neither slot carries the chain's WETH address for that
token, and one slot is the zero sentinel. -/
theorem C2_nativeZeroSentinelInPoolKeys :
    (∀ (p : SingleHopSwapParams), ∀ pk ∈ (SingleHop.encodeV4SwapActions p).swapPoolKeys,
      (isNativeToken p.tokenIn.address = true →
        pk.currency0 ≠ getWETHAddress p.tokenIn.chainId ∧
        pk.currency1 ≠ getWETHAddress p.tokenIn.chainId ∧
        (pk.currency0 = ZERO_ADDRESS ∨ pk.currency1 = ZERO_ADDRESS)) ∧
      (isNativeToken p.tokenOut.address = true →
        pk.currency0 ≠ getWETHAddress p.tokenOut.chainId ∧
        pk.currency1 ≠ getWETHAddress p.tokenOut.chainId ∧
        (pk.currency0 = ZERO_ADDRESS ∨ pk.currency1 = ZERO_ADDRESS))) ∧
    (∀ (route : List Token) (i : Nat), i + 1 < route.length →
      (isNativeToken (route.getD i dummyToken).address = true →
        ((MultiHop.hopPoolKeys route).getD i emptyPoolKey).currency0 ≠
          getWETHAddress (route.getD i dummyToken).chainId ∧
        ((MultiHop.hopPoolKeys route).getD i emptyPoolKey).currency1 ≠
          getWETHAddress (route.getD i dummyToken).chainId ∧
        (((MultiHop.hopPoolKeys route).getD i emptyPoolKey).currency0 = ZERO_ADDRESS ∨
         ((MultiHop.hopPoolKeys route).getD i emptyPoolKey).currency1 = ZERO_ADDRESS)) ∧
      (isNativeToken (route.getD (i + 1) dummyToken).address = true →
        ((MultiHop.hopPoolKeys route).getD i emptyPoolKey).currency0 ≠
          getWETHAddress (route.getD (i + 1) dummyToken).chainId ∧
        ((MultiHop.hopPoolKeys route).getD i emptyPoolKey).currency1 ≠
          getWETHAddress (route.getD (i + 1) dummyToken).chainId ∧
        (((MultiHop.hopPoolKeys route).getD i emptyPoolKey).currency0 = ZERO_ADDRESS ∨
         ((MultiHop.hopPoolKeys route).getD i emptyPoolKey).currency1 = ZERO_ADDRESS))) := by
  constructor
  · intro p pk hmem
    have hpk : pk = PoolKey.mk (SingleHop.poolKeyCurrency0 p) (SingleHop.poolKeyCurrency1 p)
        (SingleHop.poolKey p).fee (SingleHop.poolKey p).tickSpacing
        (SingleHop.poolKey p).hooks := by
      simpa [SingleHop.encodeV4SwapActions, RouterPayload.swapPoolKeys,
        v4PlannerFinalize] using hmem
    subst hpk
    exact singleHopKey_native p
  · intro route i hi
    rw [hopPoolKeys_getD route i hi]
    exact substPoolKey_native (route.getD i dummyToken) (route.getD (i + 1) dummyToken)
      FEE_AMOUNTS.MEDIUM

/-- C2 witness: the single-hop half at the concrete native-input intent
ETH→USDC on mainnet: the encoded pool key holds USDC and the zero sentinel,
and neither slot is mainnet WETH. -/
theorem C2_witness :
    poolKeyEthUsdc.currency0 ≠ getWETHAddress singleHopEthToUsdc.tokenIn.chainId ∧
    poolKeyEthUsdc.currency1 ≠ getWETHAddress singleHopEthToUsdc.tokenIn.chainId ∧
    (poolKeyEthUsdc.currency0 = ZERO_ADDRESS ∨ poolKeyEthUsdc.currency1 = ZERO_ADDRESS) :=
  (C2_nativeZeroSentinelInPoolKeys.1 singleHopEthToUsdc poolKeyEthUsdc (by decide)).1 (by decide)
